import Mathlib

/-!
Verification of the `ecs-cost-analysis` utilities.

This file gives a shallow embedding, in Lean 4, of the pure computational
core of the three Python scripts in the repository:

  * `ecs_unmanaged_services.py` — ARN normalization and the set difference
    that detects ECS services unmanaged by CloudFormation;
  * `cf_unique_descriptions.py` — template canonicalization, SHA-256
    hashing, and the (description, template-hash) grouping report;
  * `ecs_cost_analysis.py` — the cluster cost / excess-capacity estimator.

Python strings are modelled by Lean `String` (with character-level
operations on `String.data`, matching Python's code-point semantics),
Python integers by `Int`/`Nat`, Python floats by `ℚ` (exact arithmetic;
the scripts use floats only for cost estimates whose defining formulas
are what the spec describes), Python sets by `Finset`, Python dicts by
association lists, and raised exceptions by `Except`.
-/

/-! ## Character-list string primitives (Python `str.split`, `<=`, joins) -/

/-- Model of Python's `str.split(sep)` for a single-character separator,
acting on the character list of a string: every occurrence of `sep`
separates two (possibly empty) groups, so `"a:b:".split(":")` gives
`["a", "b", ""]` and `"".split(":")` gives `[""]`. -/
def charSplit (sep : Char) : List Char → List (List Char)
  | [] => [[]]
  | c :: rest =>
    if c = sep then [] :: charSplit sep rest
    else
      match charSplit sep rest with
      | [] => [[c]]
      | g :: gs => (c :: g) :: gs

/-- Inverse of `charSplit`: interleave the separator back between groups. -/
def charJoin (sep : Char) : List (List Char) → List Char
  | [] => []
  | [x] => x
  | x :: y :: rest => x ++ sep :: charJoin sep (y :: rest)

/-- Model of Python's string `<=`: lexicographic comparison by code point. -/
def charListLe : List Char → List Char → Bool
  | [], _ => true
  | _ :: _, [] => false
  | a :: as, b :: bs => if a = b then charListLe as bs else decide (a < b)

/-! ## `ecs_unmanaged_services.normalize_ecs_service_arn` -/

/-- The long-form ARN rebuilt by the f-string on line 51 of
`ecs_unmanaged_services.py`:
`f"arn:aws:ecs:(region):(account_id):service/(cluster_name)/(service_name)"`. -/
def reconstructArn (region account_id cluster_name service_name : List Char) : List Char :=
  "arn:aws:ecs:".toList ++ region ++ [':'] ++ account_id ++
    ":service/".toList ++ cluster_name ++ ['/'] ++ service_name

/-- Shallow embedding of `normalize_ecs_service_arn` from
`ecs_unmanaged_services.py` (lines 6-52), on character lists.
Splits on `':'`; fewer than 6 segments passes through; then splits the
sixth segment on `'/'`; 2 parts inject the fallback cluster, 3 parts keep
the embedded cluster, anything else passes through. -/
def normalize_ecs_service_arn (service_arn : List Char) (fallback_cluster_name : List Char) :
    List Char :=
  let parts := charSplit ':' service_arn
  if parts.length < 6 then service_arn
  else
    let region := parts.getD 3 []
    let account_id := parts.getD 4 []
    let resource_part := parts.getD 5 []
    let resource_parts := charSplit '/' resource_part
    if resource_parts.length < 2 then service_arn
    else if resource_parts.getD 0 [] ≠ "service".toList then service_arn
    else if resource_parts.length = 2 then
      reconstructArn region account_id fallback_cluster_name (resource_parts.getD 1 [])
    else if resource_parts.length = 3 then
      reconstructArn region account_id (resource_parts.getD 1 []) (resource_parts.getD 2 [])
    else service_arn

/-- String-level wrapper of the ARN normalizer. -/
def normalizeServiceArn (service_arn fallback_cluster_name : String) : String :=
  String.mk (normalize_ecs_service_arn service_arn.data fallback_cluster_name.data)

/-! ## `ecs_unmanaged_services`: CloudFormation resource gathering and set difference -/

/-- A CloudFormation stack resource as used by `ecs_unmanaged_services.main`
(lines 131-136): its `ResourceType` and `PhysicalResourceId` fields. -/
structure StackResource where
  ResourceType : String
  PhysicalResourceId : String
deriving DecidableEq

/-- The normalized service ARNs contributed by one stack: the
`AWS::ECS::Service` resources' physical IDs, normalized with the cluster
name as fallback (`ecs_unmanaged_services.py` lines 132-136). -/
def stack_ecs_service_ids (cluster_name : String) (resources : List StackResource) : List String :=
  (resources.filter (fun r => r.ResourceType == "AWS::ECS::Service")).map
    (fun r => normalizeServiceArn r.PhysicalResourceId cluster_name)

/-- Shallow embedding of the stack-resource gathering loop of
`ecs_unmanaged_services.main` (lines 127-138).  Each stack comes with the
result of its `describe_stack_resources` call: `.ok resources`, or
`.error msg` when the call raised.  A successful stack has its
`AWS::ECS::Service` physical resource IDs normalized and added to the set;
a failing stack only appends its ARN to the warning list (the
`except` branch printing `Warning: Could not describe resources ...`). -/
def gather_cfn_ec2_services (cluster_name : String)
    (stackResults : List (String × Except String (List StackResource))) :
    Finset String × List String :=
  stackResults.foldl
    (fun acc stack =>
      match stack.2 with
      | .ok resources =>
        (resources.foldl
          (fun s r =>
            if r.ResourceType == "AWS::ECS::Service" then
              insert (normalizeServiceArn r.PhysicalResourceId cluster_name) s
            else s)
          acc.1,
         acc.2)
      | .error _ => (acc.1, acc.2 ++ [stack.1]))
    (∅, [])

/-- Shallow embedding of steps 5-6 of `ecs_unmanaged_services.main`
(lines 140-146): `cfn_ec2_services_in_cluster = cfn ∩ ec2` followed by
`unmanaged = ec2 - cfn_ec2_services_in_cluster`. -/
def unmanaged_ec2_services (ec2_services cfn_ec2_services : Finset String) : Finset String :=
  ec2_services \ (cfn_ec2_services ∩ ec2_services)

/-! ## SHA-256 (model of `hashlib.sha256(...).hexdigest()`)

A byte-level embedding of FIPS 180-4 SHA-256 over `Nat` with explicit
reduction modulo `2 ^ 32`, used by `cf_unique_descriptions.compute_template_hash`. -/

/-- Reduce modulo `2 ^ 32` (32-bit word arithmetic). -/
def w32 (n : Nat) : Nat := n % 4294967296

/-- Right rotation of a 32-bit word. -/
def rotr32 (x n : Nat) : Nat := w32 ((x >>> n) ||| (x <<< (32 - n)))

/-- SHA-256 big sigma 0. -/
def bsig0 (x : Nat) : Nat := (rotr32 x 2 ^^^ rotr32 x 13) ^^^ rotr32 x 22

/-- SHA-256 big sigma 1. -/
def bsig1 (x : Nat) : Nat := (rotr32 x 6 ^^^ rotr32 x 11) ^^^ rotr32 x 25

/-- SHA-256 small sigma 0. -/
def ssig0 (x : Nat) : Nat := (rotr32 x 7 ^^^ rotr32 x 18) ^^^ (x >>> 3)

/-- SHA-256 small sigma 1. -/
def ssig1 (x : Nat) : Nat := (rotr32 x 17 ^^^ rotr32 x 19) ^^^ (x >>> 10)

/-- SHA-256 choice function. -/
def chf (x y z : Nat) : Nat := (x &&& y) ^^^ ((x ^^^ 4294967295) &&& z)

/-- SHA-256 majority function. -/
def majf (x y z : Nat) : Nat := ((x &&& y) ^^^ (x &&& z)) ^^^ (y &&& z)

/-- The 64 SHA-256 round constants. -/
def sha256K : List Nat :=
  [1116352408, 1899447441, 3049323471, 3921009573, 961987163,
   1508970993, 2453635748, 2870763221, 3624381080, 310598401,
   607225278, 1426881987, 1925078388, 2162078206, 2614888103,
   3248222580, 3835390401, 4022224774, 264347078, 604807628,
   770255983, 1249150122, 1555081692, 1996064986, 2554220882,
   2821834349, 2952996808, 3210313671, 3336571891, 3584528711,
   113926993, 338241895, 666307205, 773529912, 1294757372,
   1396182291, 1695183700, 1986661051, 2177026350, 2456956037,
   2730485921, 2820302411, 3259730800, 3345764771, 3516065817,
   3600352804, 4094571909, 275423344, 430227734, 506948616,
   659060556, 883997877, 958139571, 1322822218, 1537002063,
   1747873779, 1955562222, 2024104815, 2227730452, 2361852424,
   2428436474, 2756734187, 3204031479, 3329325298]

/-- The SHA-256 initial hash value. -/
def sha256InitH : List Nat :=
  [1779033703, 3144134277, 1013904242, 2773480762,
   1359893119, 2600822924, 528734635, 1541459225]

/-- Big-endian byte decomposition of a value into the given number of bytes. -/
def natToBytesBE : Nat → Nat → List Nat
  | 0, _ => []
  | n + 1, v => natToBytesBE n (v >>> 8) ++ [v &&& 255]

/-- SHA-256 padding: append `0x80`, zeros, and the 64-bit big-endian bit
length, reaching a multiple of 64 bytes. -/
def padMessage (msg : List Nat) : List Nat :=
  let L := msg.length
  let k := (119 - L % 64) % 64
  msg ++ 0x80 :: (List.replicate k 0 ++ natToBytesBE 8 (8 * L))

/-- Group bytes into big-endian 32-bit words. -/
def bytesToWordsBE : List Nat → List Nat
  | b0 :: b1 :: b2 :: b3 :: rest =>
      (((((b0 <<< 8) ||| b1) <<< 8 ||| b2) <<< 8) ||| b3) :: bytesToWordsBE rest
  | _ => []

/-- Extend 16 message-schedule words to 64. -/
def extendSchedule (ws : List Nat) : List Nat :=
  (List.range 48).foldl
    (fun acc _ =>
      acc ++ [w32 (ssig1 (acc.getD (acc.length - 2) 0) + acc.getD (acc.length - 7) 0 +
                   ssig0 (acc.getD (acc.length - 15) 0) + acc.getD (acc.length - 16) 0)])
    ws

/-- One SHA-256 round on the eight working variables. -/
def roundStep (st : Nat × Nat × Nat × Nat × Nat × Nat × Nat × Nat) (wk : Nat × Nat) :
    Nat × Nat × Nat × Nat × Nat × Nat × Nat × Nat :=
  match st with
  | (a, b, c, d, e, f, g, h) =>
    let t1 := w32 (h + bsig1 e + chf e f g + wk.2 + wk.1)
    let t2 := w32 (bsig0 a + majf a b c)
    (w32 (t1 + t2), a, b, c, w32 (d + t1), e, f, g)

/-- Compress one 16-word block into the running hash state. -/
def compressBlock (hs : List Nat) (block : List Nat) : List Nat :=
  let ws := extendSchedule block
  let a0 := hs.getD 0 0
  let b0 := hs.getD 1 0
  let c0 := hs.getD 2 0
  let d0 := hs.getD 3 0
  let e0 := hs.getD 4 0
  let f0 := hs.getD 5 0
  let g0 := hs.getD 6 0
  let h0 := hs.getD 7 0
  match (ws.zip sha256K).foldl roundStep (a0, b0, c0, d0, e0, f0, g0, h0) with
  | (a, b, c, d, e, f, g, h) =>
    [w32 (a0 + a), w32 (b0 + b), w32 (c0 + c), w32 (d0 + d),
     w32 (e0 + e), w32 (f0 + f), w32 (g0 + g), w32 (h0 + h)]

/-- Compress all 16-word blocks in sequence. -/
def compressAll (hs : List Nat) : List Nat → List Nat
  | w0 :: w1 :: w2 :: w3 :: w4 :: w5 :: w6 :: w7 ::
    w8 :: w9 :: w10 :: w11 :: w12 :: w13 :: w14 :: w15 :: rest =>
      compressAll
        (compressBlock hs [w0, w1, w2, w3, w4, w5, w6, w7, w8, w9, w10, w11, w12, w13, w14, w15])
        rest
  | _ => hs

/-- SHA-256 of a byte list, as eight 32-bit words. -/
def sha256Words (msg : List Nat) : List Nat :=
  compressAll sha256InitH (bytesToWordsBE (padMessage msg))

/-- A nibble as a lowercase hexadecimal character. -/
def hexChar (n : Nat) : Char := if n < 10 then Char.ofNat (48 + n) else Char.ofNat (87 + n)

/-- A 32-bit word as 8 hexadecimal characters, most significant first. -/
def wordHex (w : Nat) : List Char := (List.range 8).map (fun i => hexChar ((w >>> (28 - 4 * i)) &&& 15))

/-- Hexadecimal digest string of a word list (Python's `.hexdigest()`). -/
def hexDigest (ws : List Nat) : String := String.mk (ws.map wordHex).flatten

/-- UTF-8 encoding of one character (Python's `str.encode('utf-8')`). -/
def utf8EncodeChar (c : Char) : List Nat :=
  let n := c.toNat
  if n < 0x80 then [n]
  else if n < 0x800 then [0xC0 ||| (n >>> 6), 0x80 ||| (n &&& 0x3F)]
  else if n < 0x10000 then
    [0xE0 ||| (n >>> 12), 0x80 ||| ((n >>> 6) &&& 0x3F), 0x80 ||| (n &&& 0x3F)]
  else
    [0xF0 ||| (n >>> 18), 0x80 ||| ((n >>> 12) &&& 0x3F), 0x80 ||| ((n >>> 6) &&& 0x3F),
     0x80 ||| (n &&& 0x3F)]

/-- UTF-8 encoding of a string as a byte list. -/
def utf8Encode (s : String) : List Nat := (s.data.map utf8EncodeChar).flatten

/-! ## JSON values and `json.dumps(..., sort_keys=True)`

Model of the template bodies handled by `cf_unique_descriptions.py`: a
`TemplateBody` is either a Python dict (a JSON object) or a raw string.
`json.dumps` with `sort_keys=True` and default separators serializes a
dict with keys sorted (dict keys are unique, so sorting the items sorts
by key), `", "` between items and `": "` between key and value. -/

/-- A JSON value: the Python objects `json.dumps` can serialize here. -/
inductive Json where
  | null
  | boolVal (b : Bool)
  | num (n : Int)
  | str (s : String)
  | arr (items : List Json)
  | obj (entries : List (String × Json))

/-- Key order used by `json.dumps(..., sort_keys=True)`: compare the keys
of two object entries as Python strings (code-point lexicographic). -/
abbrev keyLe (p q : String × Json) : Prop := charListLe p.1.data q.1.data = true

/-- Four hexadecimal characters of a 16-bit value (for `\u` escapes). -/
def hex4 (n : Nat) : List Char := (List.range 4).map (fun i => hexChar ((n >>> (12 - 4 * i)) &&& 15))

/-- JSON string escaping as Python's `json.dumps` does with the default
`ensure_ascii=True`: short escapes for quote, backslash and common control
characters, `\uXXXX` (with surrogate pairs) for other control or non-ASCII
characters. -/
def escapeJsonChar (c : Char) : List Char :=
  if c = '"' then ['\\', '"']
  else if c = '\\' then ['\\', '\\']
  else if c.toNat = 8 then ['\\', 'b']
  else if c.toNat = 9 then ['\\', 't']
  else if c.toNat = 10 then ['\\', 'n']
  else if c.toNat = 12 then ['\\', 'f']
  else if c.toNat = 13 then ['\\', 'r']
  else if c.toNat < 32 ∨ 126 < c.toNat then
    if c.toNat < 65536 then '\\' :: 'u' :: hex4 c.toNat
    else
      ('\\' :: 'u' :: hex4 (55296 + ((c.toNat - 65536) >>> 10))) ++
        ('\\' :: 'u' :: hex4 (56320 + ((c.toNat - 65536) &&& 1023)))
  else [c]

/-- A JSON-quoted string, double quotes around the escaped characters. -/
def quoteJsonString (s : String) : String :=
  String.mk ('"' :: ((s.data.map escapeJsonChar).flatten ++ ['"']))

mutual

/-- Recursively sort every object's entries by key, the canonical order
`json.dumps(..., sort_keys=True)` serializes in. -/
def sortJson : Json → Json
  | .null => .null
  | .boolVal b => .boolVal b
  | .num n => .num n
  | .str s => .str s
  | .arr items => .arr (sortJsonList items)
  | .obj entries => .obj (List.insertionSort keyLe (sortJsonEntries entries))

/-- The `sortJson` of each array element. -/
def sortJsonList : List Json → List Json
  | [] => []
  | j :: rest => sortJson j :: sortJsonList rest

/-- The `sortJson` of each object entry's value. -/
def sortJsonEntries : List (String × Json) → List (String × Json)
  | [] => []
  | p :: rest => (p.1, sortJson p.2) :: sortJsonEntries rest

end

mutual

/-- Serialize a JSON value the way `json.dumps` does with default
separators (`", "` and `": "`), assuming object entries are already in
the intended order. -/
def serializeJson : Json → String
  | .null => "null"
  | .boolVal b => if b then "true" else "false"
  | .num n => toString n
  | .str s => quoteJsonString s
  | .arr items => "[" ++ serializeJsonList items ++ "]"
  | .obj entries => "\x7b" ++ serializeJsonEntries entries ++ "\x7d"

/-- Comma-joined serialization of array elements. -/
def serializeJsonList : List Json → String
  | [] => ""
  | [j] => serializeJson j
  | j :: rest => serializeJson j ++ ", " ++ serializeJsonList rest

/-- Comma-joined serialization of object entries, `": "` between key and value. -/
def serializeJsonEntries : List (String × Json) → String
  | [] => ""
  | [p] => quoteJsonString p.1 ++ ": " ++ serializeJson p.2
  | p :: rest => quoteJsonString p.1 ++ ": " ++ serializeJson p.2 ++ ", " ++ serializeJsonEntries rest

end

/-- Model of `json.dumps(x, sort_keys=True)`: serialize with every
object's entries in sorted key order. -/
def pyJsonDumpsSortKeys (j : Json) : String := serializeJson (sortJson j)

/-- The `TemplateBody` field of a `get_template` response: a dict or a
raw (JSON or YAML) string. -/
inductive TemplateBody where
  | dict (entries : List (String × Json))
  | strBody (s : String)

/-- Shallow embedding of `get_template_body_string` from
`cf_unique_descriptions.py` (lines 20-34): a dict is serialized with
`json.dumps(template_body, sort_keys=True)`, a string is returned as-is. -/
def get_template_body_string : TemplateBody → String
  | .dict entries => pyJsonDumpsSortKeys (Json.obj entries)
  | .strBody s => s

/-- Shallow embedding of `compute_template_hash` from
`cf_unique_descriptions.py` (lines 36-38):
`hashlib.sha256(template_str.encode('utf-8')).hexdigest()`. -/
def compute_template_hash (template_str : String) : String :=
  hexDigest (sha256Words (utf8Encode template_str))

/-! ## `cf_unique_descriptions.main`: the grouped report -/

/-- Python tuple ordering on `(description, template_hash)` pairs used by
`sorted(desc_hash_dict.keys(), key=lambda x: (x[0], x[1]))`. -/
def descHashLeB (p q : String × String) : Bool :=
  if p.1 = q.1 then charListLe p.2.data q.2.data else charListLe p.1.data q.1.data

/-- Propositional form of `descHashLeB`. -/
abbrev descHashLe (p q : String × String) : Prop := descHashLeB p q = true

/-- Ordering of `(stack_name, last_updated_str)` pairs by stack name,
used by `sorted(stacks_info, key=lambda x: x[0])`. -/
abbrev stackNameLe (p q : String × String) : Prop := charListLe p.1.data q.1.data = true

/-- One printed group of the report: the description line with the
truncated hash, and the per-stack lines (empty when
`--template-names-only` is set). -/
structure ReportGroup where
  description : String
  templateHash : String
  shortHash : String
  stackLines : List (String × String)
deriving DecidableEq

/-- Shallow embedding of the printing loop of `cf_unique_descriptions.main`
(lines 128-139): group keys sorted by `(description, hash)`, the hash
shown truncated to its first 7 characters (`t_hash[:7]`), and, unless
`--template-names-only` was passed, the group's stacks sorted by name.
The grouping dict is given as an association list of
`(description, template_hash)` keys to `(stack_name, last_updated)` lists. -/
def build_report (template_names_only : Bool)
    (desc_hash_dict : List ((String × String) × List (String × String))) : List ReportGroup :=
  (List.insertionSort descHashLe (desc_hash_dict.map (fun e => e.1))).map fun k =>
    { description := k.1
      templateHash := k.2
      shortHash := String.mk (k.2.data.take 7)
      stackLines :=
        if template_names_only then []
        else List.insertionSort stackNameLe ((desc_hash_dict.lookup k).getD []) }

/-! ## `ecs_cost_analysis.py` -/

/-- One row of the hardcoded m5 `instance_data` table: hourly cost (a
Python float, modelled exactly as a rational), vCPUs and memory in GiB. -/
structure InstanceProfile where
  cost : ℚ
  vcpus : ℕ
  memory_gib : ℕ
deriving DecidableEq

/-- The `instance_data` dict of `ecs_cost_analysis.py` (lines 13-18). -/
def instance_data : List (String × InstanceProfile) :=
  [("m5.large", { cost := 0.096, vcpus := 2, memory_gib := 8 }),
   ("m5.xlarge", { cost := 0.192, vcpus := 4, memory_gib := 16 }),
   ("m5.2xlarge", { cost := 0.384, vcpus := 8, memory_gib := 32 }),
   ("m5.4xlarge", { cost := 0.768, vcpus := 16, memory_gib := 64 })]

/-- A container instance as consumed by `calculate_current_usage`:
`registeredResources[0/1]["integerValue"]` and
`remainingResources[0/1]["integerValue"]` (CPU units and memory MiB). -/
structure ContainerInstance where
  registeredCpu : Int
  registeredMemory : Int
  remainingCpu : Int
  remainingMemory : Int
deriving DecidableEq

/-- Shallow embedding of `calculate_current_usage` from
`ecs_cost_analysis.py` (lines 51-68): accumulate total registered CPU and
memory, and used CPU and memory as registered minus remaining, over all
container instances.  Returns
`(total_cpu, total_memory, used_cpu, used_memory)`. -/
def calculate_current_usage (container_instances : List ContainerInstance) :
    Int × Int × Int × Int :=
  container_instances.foldl
    (fun acc inst =>
      (acc.1 + inst.registeredCpu,
       acc.2.1 + inst.registeredMemory,
       acc.2.2.1 + (inst.registeredCpu - inst.remainingCpu),
       acc.2.2.2 + (inst.registeredMemory - inst.remainingMemory)))
    (0, 0, 0, 0)

/-- The numbers `ecs_cost_analysis.main` derives and prints on lines
117-140. -/
structure CostReport where
  total_cpu : Int
  total_memory : Int
  used_cpu : Int
  used_memory : Int
  excess_cpu : Int
  excess_memory : Int
  num_excess_instances : ℚ
  current_cost_hourly : ℚ
  potential_savings_hourly : ℚ
deriving DecidableEq

/-- Shallow embedding of the capacity/cost computation of
`ecs_cost_analysis.main` (lines 117-136), with float arithmetic modelled
exactly over `ℚ`. -/
def cost_report (prof : InstanceProfile) (container_instances : List ContainerInstance) :
    CostReport :=
  let u := calculate_current_usage container_instances
  let total_cpu := u.1
  let total_memory := u.2.1
  let used_cpu := u.2.2.1
  let used_memory := u.2.2.2
  let excess_cpu := total_cpu - used_cpu
  let excess_memory := total_memory - used_memory
  let num_instances_fit_within_excess_cpu : ℚ := (excess_cpu : ℚ) / ((prof.vcpus : ℚ) * 1024)
  let num_instances_fit_within_excess_memory : ℚ :=
    (excess_memory : ℚ) / ((prof.memory_gib : ℚ) * 1024)
  let num_excess_instances := max num_instances_fit_within_excess_cpu
    num_instances_fit_within_excess_memory
  { total_cpu := total_cpu
    total_memory := total_memory
    used_cpu := used_cpu
    used_memory := used_memory
    excess_cpu := excess_cpu
    excess_memory := excess_memory
    num_excess_instances := num_excess_instances
    current_cost_hourly := (container_instances.length : ℚ) * prof.cost
    potential_savings_hourly := num_excess_instances * prof.cost }

/-- The property section 4.4 of the spec states for the cost estimator,
phrased independently of `cost_report`'s internals: totals are sums of
registered values, used is the sum of registered minus remaining, excess
is total minus used, the instance estimate is the max of the CPU-bound
and memory-bound quotients, and the savings is that estimate times the
hourly cost. -/
def costEstimatorSpecProp (prof : InstanceProfile)
    (container_instances : List ContainerInstance) : Prop :=
  let u := calculate_current_usage container_instances
  let r := cost_report prof container_instances
  u.1 = (container_instances.map (fun i => i.registeredCpu)).sum ∧
  u.2.1 = (container_instances.map (fun i => i.registeredMemory)).sum ∧
  u.2.2.1 = (container_instances.map (fun i => i.registeredCpu - i.remainingCpu)).sum ∧
  u.2.2.2 = (container_instances.map (fun i => i.registeredMemory - i.remainingMemory)).sum ∧
  r.total_cpu = u.1 ∧ r.total_memory = u.2.1 ∧
  r.used_cpu = u.2.2.1 ∧ r.used_memory = u.2.2.2 ∧
  r.excess_cpu = r.total_cpu - r.used_cpu ∧
  r.excess_memory = r.total_memory - r.used_memory ∧
  r.num_excess_instances =
    max ((r.excess_cpu : ℚ) / ((prof.vcpus : ℚ) * 1024))
      ((r.excess_memory : ℚ) / ((prof.memory_gib : ℚ) * 1024)) ∧
  r.current_cost_hourly = (container_instances.length : ℚ) * prof.cost ∧
  r.potential_savings_hourly = r.num_excess_instances * prof.cost

/-- A task as consumed by `main` (lines 93-107): its `cpu` and `memory`
values after `int(...)` conversion. -/
structure EcsTask where
  cpu : Int
  memory : Int
deriving DecidableEq

/-- The unhandled Python exceptions `ecs_cost_analysis.main` can raise
from its pure computation: `ValueError` from `max` of an empty sequence,
`KeyError` from an `instance_data[...]` lookup miss. -/
inductive PyError where
  | valueError
  | keyError (key : String)
deriving DecidableEq

/-- Model of Python's `max(xs, key=f)`: `ValueError` on an empty sequence,
otherwise the first element with maximal key (later elements replace the
current best only when strictly greater). -/
def pyMaxBy {α : Type} (key : α → Int) : List α → Except PyError α
  | [] => .error .valueError
  | x :: xs => .ok (xs.foldl (fun best y => if key best < key y then y else best) x)

/-- Model of a Python dict subscript `d[k]`: `KeyError(k)` when absent. -/
def dictGet {α : Type} (d : List (String × α)) (k : String) : Except PyError α :=
  match d.lookup k with
  | some v => .ok v
  | none => .error (.keyError k)

/-- Everything `ecs_cost_analysis.main` prints from its pure inputs,
and its return value 0. -/
structure MainReport where
  largest_task_cpu : Int
  largest_task_memory : Int
  unique_cpu_values : Finset Int
  unique_memory_values : Finset Int
  report : CostReport
  exit_code : Nat
deriving DecidableEq

/-- Shallow embedding of the pure computation of `ecs_cost_analysis.main`
(lines 90-142), in the source's evaluation order: the two `max` calls over
the described tasks (lines 93-94, `ValueError` when the task list is
empty), then the first `instance_data[instance_type]` subscript (line 96,
`KeyError` for an unknown type), then the unique-value sets and the
capacity/cost report over the described container instances. -/
def main_core (instance_type : String) (tasks : List EcsTask)
    (container_instances : List ContainerInstance) : Except PyError MainReport :=
  match pyMaxBy (fun t => t.cpu) tasks with
  | .error e => .error e
  | .ok largest_cpu_task =>
    match pyMaxBy (fun t => t.memory) tasks with
    | .error e => .error e
    | .ok largest_memory_task =>
      match dictGet instance_data instance_type with
      | .error e => .error e
      | .ok prof =>
        .ok { largest_task_cpu := largest_cpu_task.cpu
              largest_task_memory := largest_memory_task.memory
              unique_cpu_values := (tasks.map (fun t => t.cpu)).toFinset
              unique_memory_values := (tasks.map (fun t => t.memory)).toFinset
              report := cost_report prof container_instances
              exit_code := 0 }

/-- Whether a run outcome is an uncaught `KeyError`. -/
def isKeyError {α : Type} : Except PyError α → Bool
  | .error (.keyError _) => true
  | _ => false

/-! ## Lemmas about `charSplit` and `charJoin` -/

theorem charSplit_ne_nil (sep : Char) (s : List Char) : charSplit sep s ≠ [] := by
  induction s with
  | nil => simp [charSplit]
  | cons c rest ih =>
    simp only [charSplit]
    split
    · simp
    · cases h : charSplit sep rest with
      | nil => simp
      | cons g gs => simp

theorem charJoin_charSplit (sep : Char) (s : List Char) :
    charJoin sep (charSplit sep s) = s := by
  induction s with
  | nil => simp [charSplit, charJoin]
  | cons c rest ih =>
    simp only [charSplit]
    split
    · rename_i hc
      subst hc
      cases h : charSplit c rest with
      | nil => exact absurd h (charSplit_ne_nil c rest)
      | cons g gs =>
        rw [h] at ih
        simp [charJoin, ih]
    · cases h : charSplit sep rest with
      | nil => exact absurd h (charSplit_ne_nil sep rest)
      | cons g gs =>
        rw [h] at ih
        cases gs with
        | nil => simp [charJoin] at ih ⊢; simp [ih]
        | cons g2 gs2 => simp [charJoin] at ih ⊢; simp [ih]

/-! ## Order lemmas for `charListLe` -/

theorem charListLe_refl (a : List Char) : charListLe a a = true := by
  induction a with
  | nil => rfl
  | cons c rest ih => simp [charListLe, ih]

theorem charListLe_total (a b : List Char) :
    charListLe a b = true ∨ charListLe b a = true := by
  induction a generalizing b with
  | nil => left; rfl
  | cons x xs ih =>
    cases b with
    | nil => right; rfl
    | cons y ys =>
      by_cases hxy : x = y
      · subst hxy
        rcases ih ys with h | h
        · left; simp [charListLe, h]
        · right; simp [charListLe, h]
      · rcases lt_or_gt_of_ne hxy with h | h
        · left; simp [charListLe, hxy, h]
        · right; simp [charListLe, Ne.symm hxy, h]

theorem charListLe_antisymm {a b : List Char} (hab : charListLe a b = true)
    (hba : charListLe b a = true) : a = b := by
  induction a generalizing b with
  | nil =>
    cases b with
    | nil => rfl
    | cons y ys => simp [charListLe] at hba
  | cons x xs ih =>
    cases b with
    | nil => simp [charListLe] at hab
    | cons y ys =>
      by_cases hxy : x = y
      · subst hxy
        simp only [charListLe, if_pos rfl] at hab hba
        rw [ih hab hba]
      · simp only [charListLe, if_neg hxy, decide_eq_true_eq] at hab
        simp only [charListLe, if_neg (Ne.symm hxy), decide_eq_true_eq] at hba
        exact absurd (lt_trans hab hba) (lt_irrefl x)

theorem charListLe_trans {a b c : List Char} (hab : charListLe a b = true)
    (hbc : charListLe b c = true) : charListLe a c = true := by
  induction a generalizing b c with
  | nil => rfl
  | cons x xs ih =>
    cases b with
    | nil => simp [charListLe] at hab
    | cons y ys =>
      cases c with
      | nil => simp [charListLe] at hbc
      | cons z zs =>
        by_cases hxy : x = y
        · subst hxy
          simp only [charListLe, if_pos rfl] at hab
          by_cases hyz : x = z
          · subst hyz
            simp only [charListLe, if_pos rfl] at hbc ⊢
            exact ih hab hbc
          · simp only [charListLe, if_neg hyz] at hbc ⊢
            exact hbc
        · simp only [charListLe, if_neg hxy, decide_eq_true_eq] at hab
          by_cases hyz : y = z
          · subst hyz
            simp [charListLe, if_neg hxy, hab]
          · simp only [charListLe, if_neg hyz, decide_eq_true_eq] at hbc
            have hxz : x < z := lt_trans hab hbc
            simp [charListLe, ne_of_lt hxz, hxz]

/-! ## ARN normalizer lemmas -/

theorem normalize_of_split_long (arn fb a0 a1 a2 region account res cluster service : List Char)
    (hsplit : charSplit ':' arn = [a0, a1, a2, region, account, res])
    (hres : charSplit '/' res = ["service".toList, cluster, service]) :
    normalize_ecs_service_arn arn fb = reconstructArn region account cluster service := by
  simp only [normalize_ecs_service_arn, hsplit]
  norm_num [List.getD, hres]

/-- C3: short-form normalization.  For every ARN splitting on `':'` into at
least 6 segments whose sixth segment splits on `'/'` into exactly
`["service", name]`, and every fallback cluster name, the normalizer
injects the fallback cluster, producing
`arn:aws:ecs:<region>:<account>:service/<fallback>/<name>` with the
region and account taken from the 4th and 5th segments. -/
theorem normalize_short_form_injects_fallback (arn fb a0 a1 a2 region account res name : List Char)
    (rest : List (List Char))
    (hsplit : charSplit ':' arn = a0 :: a1 :: a2 :: region :: account :: res :: rest)
    (hres : charSplit '/' res = ["service".toList, name]) :
    normalize_ecs_service_arn arn fb = reconstructArn region account fb name := by
  simp only [normalize_ecs_service_arn, hsplit]
  norm_num [List.getD, hres]

/-- C4: malformed-ARN policy.  `normalize_ecs_service_arn` is total by
construction (it is a Lean function, never throwing), and it returns its
input unchanged whenever the ARN has fewer than 6 colon-separated
segments, or its sixth segment has fewer than 2 slash-separated parts,
or that segment's first part is not `service`, or it has more than 3
slash-separated parts. -/
theorem normalize_malformed_passthrough (arn fb : List Char)
    (h : (charSplit ':' arn).length < 6 ∨
         (charSplit '/' ((charSplit ':' arn).getD 5 [])).length < 2 ∨
         (charSplit '/' ((charSplit ':' arn).getD 5 [])).getD 0 [] ≠ "service".toList ∨
         3 < (charSplit '/' ((charSplit ':' arn).getD 5 [])).length) :
    normalize_ecs_service_arn arn fb = arn := by
  by_cases h6 : (charSplit ':' arn).length < 6
  · simp [normalize_ecs_service_arn, h6]
  · rcases h with h | h | h | h
    · exact absurd h h6
    · simp only [List.getD_eq_getElem?_getD] at h
      simp [normalize_ecs_service_arn, h6]
      intro hlen
      exact absurd hlen (by omega)
    · simp only [List.getD_eq_getElem?_getD] at h
      simp [normalize_ecs_service_arn, h6]
      intro _ hserv
      exact absurd hserv (by simpa using h)
    · simp only [List.getD_eq_getElem?_getD] at h
      simp [normalize_ecs_service_arn, h6]
      intro h2' hserv
      have h3' : ¬(charSplit '/' ((charSplit ':' arn)[5]?.getD [])).length = 2 := by omega
      have h4' : ¬(charSplit '/' ((charSplit ':' arn)[5]?.getD [])).length = 3 := by omega
      simp [h3', h4']

/-- C2 (amended): canonical long-form ARNs are fixed points.  For every
service ARN whose colon split is exactly
`["arn", "aws", "ecs", region, account, res]` with `res` splitting on
`'/'` into exactly `["service", cluster, service]`, and every fallback
cluster name, `normalize_ecs_service_arn` returns the input unchanged.
(The original claim required only "at least 6 colon-separated segments"
with no constraint on the first three segments; the reconstruction on
line 51 of `ecs_unmanaged_services.py` hardcodes the `arn:aws:ecs`
prefix and drops any segment after the sixth, so such inputs are not
fixed points — see the counterexample.) -/
theorem normalize_long_form_fixed_point (arn fb region account cluster service res : List Char)
    (hsplit : charSplit ':' arn =
      ["arn".toList, "aws".toList, "ecs".toList, region, account, res])
    (hres : charSplit '/' res = ["service".toList, cluster, service]) :
    normalize_ecs_service_arn arn fb = arn := by
  have harn : arn = charJoin ':' (charSplit ':' arn) := (charJoin_charSplit ':' arn).symm
  rw [hsplit] at harn
  have hres' : res = charJoin '/' (charSplit '/' res) := (charJoin_charSplit '/' res).symm
  rw [hres] at hres'
  rw [normalize_of_split_long arn fb _ _ _ region account res cluster service hsplit hres]
  rw [harn, hres']
  simp [reconstructArn, charJoin, String.toList, List.append_assoc]

/-! ## Ordering instances for the sort relations -/

instance : IsTotal (String × Json) keyLe :=
  ⟨fun p q => charListLe_total p.1.data q.1.data⟩

instance : IsTrans (String × Json) keyLe :=
  ⟨fun _ _ _ hab hbc => charListLe_trans hab hbc⟩

/-- Strict version of `keyLe`: the keys also differ. -/
def keyLt (p q : String × Json) : Prop := keyLe p q ∧ p.1 ≠ q.1

instance : IsAntisymm (String × Json) keyLt :=
  ⟨fun _ _ hab hba =>
    absurd (String.ext (charListLe_antisymm hab.1 hba.1)) hab.2⟩

instance : IsTotal (String × String) stackNameLe :=
  ⟨fun p q => charListLe_total p.1.data q.1.data⟩

instance : IsTrans (String × String) stackNameLe :=
  ⟨fun _ _ _ hab hbc => charListLe_trans hab hbc⟩

instance : IsTotal (String × String) descHashLe := by
  constructor
  intro p q
  unfold descHashLe descHashLeB
  by_cases h : p.1 = q.1
  · simp [h, charListLe_total]
  · simp [h, Ne.symm h, charListLe_total]

instance : IsTrans (String × String) descHashLe := by
  constructor
  intro p q r hpq hqr
  unfold descHashLe descHashLeB at *
  by_cases h1 : p.1 = q.1 <;> by_cases h2 : q.1 = r.1
  · simp only [if_pos h1] at hpq
    simp only [if_pos h2] at hqr
    simp only [if_pos (h1.trans h2)]
    exact charListLe_trans hpq hqr
  · simp only [if_pos h1] at hpq
    simp only [if_neg h2] at hqr
    have hpr : p.1 ≠ r.1 := h1 ▸ h2
    rw [if_neg hpr, h1]
    exact hqr
  · simp only [if_neg h1] at hpq
    simp only [if_pos h2] at hqr
    have hpr : p.1 ≠ r.1 := fun h => h1 (h.trans h2.symm)
    rw [if_neg hpr, ← h2]
    exact hpq
  · simp only [if_neg h1] at hpq
    simp only [if_neg h2] at hqr
    have hpr : p.1 ≠ r.1 := by
      intro h
      exact h1 (String.ext (charListLe_antisymm hpq (h ▸ hqr)))
    simp only [if_neg hpr]
    exact charListLe_trans hpq hqr

/-! ## Canonical serialization is invariant under entry permutation -/

theorem sortJsonEntries_eq_map (e : List (String × Json)) :
    sortJsonEntries e = e.map (fun p => (p.1, sortJson p.2)) := by
  induction e with
  | nil => rfl
  | cons p rest ih => simp [sortJsonEntries, ih]

theorem insertionSort_keyLe_eq_of_perm (l1 l2 : List (String × Json))
    (hp : l1.Perm l2) (hnd : (l1.map Prod.fst).Nodup) :
    List.insertionSort keyLe l1 = List.insertionSort keyLe l2 := by
  have hperm : (List.insertionSort keyLe l1).Perm (List.insertionSort keyLe l2) :=
    ((List.perm_insertionSort keyLe l1).trans hp).trans
      (List.perm_insertionSort keyLe l2).symm
  have hnd1 : ((List.insertionSort keyLe l1).map Prod.fst).Nodup :=
    (((List.perm_insertionSort keyLe l1).map Prod.fst).nodup_iff).mpr hnd
  have hnd2 : ((List.insertionSort keyLe l2).map Prod.fst).Nodup :=
    ((hperm.map Prod.fst).nodup_iff).mp hnd1
  have hs1 : List.Sorted keyLt (List.insertionSort keyLe l1) := by
    have hle := List.sorted_insertionSort keyLe l1
    have hne : List.Pairwise (fun a b : String × Json => a.1 ≠ b.1)
        (List.insertionSort keyLe l1) := List.pairwise_map.mp hnd1
    exact hle.and hne
  have hs2 : List.Sorted keyLt (List.insertionSort keyLe l2) := by
    have hle := List.sorted_insertionSort keyLe l2
    have hne : List.Pairwise (fun a b : String × Json => a.1 ≠ b.1)
        (List.insertionSort keyLe l2) := List.pairwise_map.mp hnd2
    exact hle.and hne
  exact List.eq_of_perm_of_sorted hperm hs1 hs2

theorem sortJsonEntries_map_fst (e : List (String × Json)) :
    (sortJsonEntries e).map Prod.fst = e.map Prod.fst := by
  rw [sortJsonEntries_eq_map, List.map_map]
  rfl

theorem dumps_eq_of_entries_perm (e1 e2 : List (String × Json))
    (hp : e1.Perm e2) (hnd : (e1.map Prod.fst).Nodup) :
    pyJsonDumpsSortKeys (Json.obj e1) = pyJsonDumpsSortKeys (Json.obj e2) := by
  unfold pyJsonDumpsSortKeys
  suffices h : sortJson (Json.obj e1) = sortJson (Json.obj e2) by rw [h]
  simp only [sortJson]
  have hp' : (sortJsonEntries e1).Perm (sortJsonEntries e2) := by
    rw [sortJsonEntries_eq_map, sortJsonEntries_eq_map]
    exact hp.map _
  have hnd' : ((sortJsonEntries e1).map Prod.fst).Nodup := by
    rw [sortJsonEntries_map_fst]
    exact hnd
  rw [insertionSort_keyLe_eq_of_perm _ _ hp' hnd']

/-! ## Fold characterizations for the gathering loop and the usage sums -/

theorem gather_inner_foldl (cluster_name : String) (resources : List StackResource)
    (s : Finset String) :
    resources.foldl
      (fun s r =>
        if r.ResourceType == "AWS::ECS::Service" then
          insert (normalizeServiceArn r.PhysicalResourceId cluster_name) s
        else s)
      s = s ∪ (stack_ecs_service_ids cluster_name resources).toFinset := by
  induction resources generalizing s with
  | nil => simp [stack_ecs_service_ids]
  | cons r rest ih =>
    simp only [List.foldl_cons]
    by_cases h : r.ResourceType == "AWS::ECS::Service"
    · rw [if_pos h, ih]
      ext x
      simp [stack_ecs_service_ids, List.filter_cons, h]
      try tauto
    · rw [if_neg h, ih]
      ext x
      simp [stack_ecs_service_ids, List.filter_cons, h]

theorem gather_foldl_acc (cluster_name : String)
    (stackResults : List (String × Except String (List StackResource)))
    (acc : Finset String × List String) :
    stackResults.foldl
      (fun acc stack =>
        match stack.2 with
        | .ok resources =>
          (resources.foldl
            (fun s r =>
              if r.ResourceType == "AWS::ECS::Service" then
                insert (normalizeServiceArn r.PhysicalResourceId cluster_name) s
              else s)
            acc.1,
           acc.2)
        | .error _ => (acc.1, acc.2 ++ [stack.1]))
      acc =
      (acc.1 ∪ ((stackResults.filterMap (fun p => p.2.toOption)).map
          (stack_ecs_service_ids cluster_name)).flatten.toFinset,
       acc.2 ++ stackResults.filterMap
          (fun p => match p.2 with | .error _ => some p.1 | .ok _ => none)) := by
  induction stackResults generalizing acc with
  | nil => simp
  | cons st rest ih =>
    obtain ⟨arn, res⟩ := st
    cases res with
    | ok resources =>
      rw [List.foldl_cons, ih]
      simp only [List.filterMap_cons, Except.toOption, List.map_cons, List.flatten_cons,
        List.toFinset_append, Finset.union_assoc]
      rw [gather_inner_foldl, Finset.union_assoc]
    | error e =>
      rw [List.foldl_cons, ih]
      simp only [List.filterMap_cons, Except.toOption, List.append_assoc, List.singleton_append]

theorem calculate_current_usage_acc (container_instances : List ContainerInstance)
    (acc : Int × Int × Int × Int) :
    container_instances.foldl
      (fun acc inst =>
        (acc.1 + inst.registeredCpu,
         acc.2.1 + inst.registeredMemory,
         acc.2.2.1 + (inst.registeredCpu - inst.remainingCpu),
         acc.2.2.2 + (inst.registeredMemory - inst.remainingMemory)))
      acc =
      (acc.1 + (container_instances.map (fun i => i.registeredCpu)).sum,
       acc.2.1 + (container_instances.map (fun i => i.registeredMemory)).sum,
       acc.2.2.1 + (container_instances.map (fun i => i.registeredCpu - i.remainingCpu)).sum,
       acc.2.2.2 + (container_instances.map (fun i => i.registeredMemory - i.remainingMemory)).sum) := by
  induction container_instances generalizing acc with
  | nil => simp
  | cons i rest ih =>
    rw [List.foldl_cons, ih]
    simp [add_assoc]

theorem calculate_current_usage_eq_sums (container_instances : List ContainerInstance) :
    calculate_current_usage container_instances =
      ((container_instances.map (fun i => i.registeredCpu)).sum,
       (container_instances.map (fun i => i.registeredMemory)).sum,
       (container_instances.map (fun i => i.registeredCpu - i.remainingCpu)).sum,
       (container_instances.map (fun i => i.registeredMemory - i.remainingMemory)).sum) := by
  unfold calculate_current_usage
  rw [calculate_current_usage_acc]
  simp

/-! ## Claim theorems, counterexamples and witnesses -/

/-- C2 counterexample: `x:y:z:r:a:service/c/s` has exactly 6
colon-separated segments and its sixth segment splits on `'/'` into
exactly `["service", "c", "s"]` — long form in the claim's sense — yet
normalization rewrites it to `arn:aws:ecs:r:a:service/c/s` instead of
returning it unchanged. -/
theorem normalize_long_form_counterexample :
    (charSplit ':' "x:y:z:r:a:service/c/s".toList).length = 6 ∧
    charSplit '/' ((charSplit ':' "x:y:z:r:a:service/c/s".toList).getD 5 []) =
      ["service".toList, "c".toList, "s".toList] ∧
    normalize_ecs_service_arn "x:y:z:r:a:service/c/s".toList "Bar".toList ≠
      "x:y:z:r:a:service/c/s".toList ∧
    normalize_ecs_service_arn "x:y:z:r:a:service/c/s".toList "Bar".toList =
      "arn:aws:ecs:r:a:service/c/s".toList :=
  ⟨by decide, by decide, by decide, by decide⟩

/-- Witness for C2: the canonical long-form ARN
`arn:aws:ecs:us-east-1:123:service/Bar/Foo` is a fixed point. -/
theorem normalize_long_form_fixed_point_witness :
    charSplit ':' "arn:aws:ecs:us-east-1:123:service/Bar/Foo".toList =
      ["arn".toList, "aws".toList, "ecs".toList, "us-east-1".toList, "123".toList,
       "service/Bar/Foo".toList] ∧
    charSplit '/' "service/Bar/Foo".toList =
      ["service".toList, "Bar".toList, "Foo".toList] ∧
    normalize_ecs_service_arn "arn:aws:ecs:us-east-1:123:service/Bar/Foo".toList
        "Other".toList =
      "arn:aws:ecs:us-east-1:123:service/Bar/Foo".toList :=
  ⟨by decide, by decide,
    normalize_long_form_fixed_point "arn:aws:ecs:us-east-1:123:service/Bar/Foo".toList
      "Other".toList "us-east-1".toList "123".toList "Bar".toList "Foo".toList
      "service/Bar/Foo".toList (by decide) (by decide)⟩

/-- Witness for C3: `arn:aws:ecs:us-east-1:123:service/Foo` with fallback
cluster `Bar` normalizes to `arn:aws:ecs:us-east-1:123:service/Bar/Foo`. -/
theorem normalize_short_form_witness :
    charSplit ':' "arn:aws:ecs:us-east-1:123:service/Foo".toList =
      ["arn".toList, "aws".toList, "ecs".toList, "us-east-1".toList, "123".toList,
       "service/Foo".toList] ∧
    charSplit '/' "service/Foo".toList = ["service".toList, "Foo".toList] ∧
    normalize_ecs_service_arn "arn:aws:ecs:us-east-1:123:service/Foo".toList "Bar".toList =
      "arn:aws:ecs:us-east-1:123:service/Bar/Foo".toList :=
  ⟨by decide, by decide,
    (normalize_short_form_injects_fallback "arn:aws:ecs:us-east-1:123:service/Foo".toList
        "Bar".toList "arn".toList "aws".toList "ecs".toList "us-east-1".toList "123".toList
        "service/Foo".toList "Foo".toList [] (by decide) (by decide)).trans (by decide)⟩

/-- Witness for C4: the malformed ARN `not-an-arn` passes through unchanged. -/
theorem normalize_malformed_passthrough_witness :
    (charSplit ':' "not-an-arn".toList).length < 6 ∧
    normalize_ecs_service_arn "not-an-arn".toList "Bar".toList = "not-an-arn".toList :=
  ⟨by decide,
    normalize_malformed_passthrough "not-an-arn".toList "Bar".toList (Or.inl (by decide))⟩

/-- C1 (amended): template hashing is invariant under re-serialization of
the dict form.  Two dict templates with the same keys and values (the
entries of one a permutation of the other's, keys unique as in a Python
dict) hash identically, and a dict template hashes identically to the
string template holding its canonical (`sort_keys=True`) serialization.
(The original claim extended this to every byte-different JSON string
form with the same keys and values; `get_template_body_string` returns a
string template as-is — lines 29-34 — so such a string form hashes
differently, see the counterexample.) -/
theorem template_hash_stable_under_dict_reserialization
    (e1 e2 : List (String × Json)) (hp : e1.Perm e2)
    (hnd : (e1.map Prod.fst).Nodup) :
    compute_template_hash (get_template_body_string (TemplateBody.dict e1)) =
      compute_template_hash (get_template_body_string (TemplateBody.dict e2)) ∧
    ∀ e : List (String × Json),
      compute_template_hash (get_template_body_string (TemplateBody.dict e)) =
        compute_template_hash
          (get_template_body_string
            (TemplateBody.strBody (pyJsonDumpsSortKeys (Json.obj e)))) := by
  constructor
  · exact congrArg compute_template_hash (dumps_eq_of_entries_perm e1 e2 hp hnd)
  · intro e
    rfl

/-- C1 counterexample: the dict template with single entry `"a" ↦ 1`
serializes canonically to the string `\x7b"a": 1\x7d`, while the
byte-different but semantically equal JSON string template `\x7b"a":1\x7d`
is hashed as-is, yielding a different SHA-256 digest — so two stacks with
these two templates and the same description land in different
`(description, hash)` groups. -/
theorem template_hash_string_form_counterexample :
    pyJsonDumpsSortKeys (Json.obj [("a", Json.num 1)]) = "\x7b\"a\": 1\x7d" ∧
    compute_template_hash (get_template_body_string (TemplateBody.dict [("a", Json.num 1)])) ≠
      compute_template_hash (get_template_body_string (TemplateBody.strBody "\x7b\"a\":1\x7d")) := by
  constructor
  · decide
  · decide

/-- Witness for C1: the two permuted two-entry dicts hash identically. -/
theorem template_hash_stable_witness :
    ([("b", Json.num 2), ("a", Json.num 1)] : List (String × Json)).Perm
        [("a", Json.num 1), ("b", Json.num 2)] ∧
    (([("b", Json.num 2), ("a", Json.num 1)] : List (String × Json)).map Prod.fst).Nodup ∧
    compute_template_hash
        (get_template_body_string (TemplateBody.dict [("b", Json.num 2), ("a", Json.num 1)])) =
      compute_template_hash
        (get_template_body_string (TemplateBody.dict [("a", Json.num 1), ("b", Json.num 2)])) :=
  ⟨List.Perm.swap _ _ _, by decide,
    (template_hash_stable_under_dict_reserialization _ _ (List.Perm.swap _ _ _) (by decide)).1⟩

/-- C5: the reported unmanaged set is the plain set difference.  For all
sets `E` (normalized EC2 service ARNs) and `C` (normalized
CloudFormation-managed service ARNs), the intersect-first computation
`E - (C ∩ E)` of lines 140-146 equals `E - C`, never contains an element
of `C`, and on the example `E = (A, B, C)`, `C = (B, C)` yields `(A)`. -/
theorem unmanaged_services_set_difference (E C : Finset String) :
    unmanaged_ec2_services E C = E \ C ∧
    (∀ x ∈ C, x ∉ unmanaged_ec2_services E C) ∧
    unmanaged_ec2_services {"A", "B", "C"} {"B", "C"} = {"A"} := by
  have h1 : unmanaged_ec2_services E C = E \ C := by
    unfold unmanaged_ec2_services
    ext x
    simp
  refine ⟨h1, ?_, by decide⟩
  intro x hx
  rw [h1]
  simp [hx]

/-- Witness for C5: `B` is CloudFormation-managed, so it is not reported. -/
theorem unmanaged_services_set_difference_witness :
    "B" ∈ ({"B", "C"} : Finset String) ∧
    "B" ∉ unmanaged_ec2_services {"A", "B", "C"} {"B", "C"} :=
  ⟨by decide,
    (unmanaged_services_set_difference {"A", "B", "C"} {"B", "C"}).2.1 "B" (by decide)⟩

/-- C6: per-stack error isolation.  The gathering loop always completes
(it is a total function); its resulting CloudFormation-managed service
set is exactly the union of the normalized `AWS::ECS::Service` physical
resource IDs of the stacks whose `describe_stack_resources` succeeded —
a failing stack contributes nothing — and its warning list carries
exactly one entry per failing stack. -/
theorem per_stack_error_isolation (cluster_name : String)
    (stackResults : List (String × Except String (List StackResource))) :
    (gather_cfn_ec2_services cluster_name stackResults).1 =
      ((stackResults.filterMap (fun p => p.2.toOption)).map
        (stack_ecs_service_ids cluster_name)).flatten.toFinset ∧
    (gather_cfn_ec2_services cluster_name stackResults).2 =
      stackResults.filterMap
        (fun p => match p.2 with | .error _ => some p.1 | .ok _ => none) := by
  unfold gather_cfn_ec2_services
  rw [gather_foldl_acc]
  constructor
  · simp
  · simp

/-- C7: cost-estimator postcondition.  For a profile looked up in the
`instance_data` table and any container instance list, the totals are the
sums of the registered resource values, used is the sum of registered
minus remaining, excess is total minus used, the excess-instance estimate
is the max of the CPU-bound and memory-bound quotients for the given
type, and the projected savings is that estimate times the type's hourly
cost. -/
theorem cost_estimator_postcondition (instance_type : String) (prof : InstanceProfile)
    (container_instances : List ContainerInstance)
    (_h : instance_data.lookup instance_type = some prof) :
    costEstimatorSpecProp prof container_instances := by
  unfold costEstimatorSpecProp
  refine ⟨?_, ?_, ?_, ?_, rfl, rfl, rfl, rfl, rfl, rfl, rfl, rfl, rfl⟩ <;>
    rw [calculate_current_usage_eq_sums]

/-- Witness for C7: one `m5.large`-profiled instance, half used. -/
theorem cost_estimator_postcondition_witness :
    instance_data.lookup "m5.large" =
      some { cost := 0.096, vcpus := 2, memory_gib := 8 } ∧
    costEstimatorSpecProp { cost := 0.096, vcpus := 2, memory_gib := 8 }
      [{ registeredCpu := 2048, registeredMemory := 8192,
         remainingCpu := 1024, remainingMemory := 4096 }] :=
  ⟨rfl,
    cost_estimator_postcondition "m5.large" _
      [{ registeredCpu := 2048, registeredMemory := 8192,
         remainingCpu := 1024, remainingMemory := 4096 }] rfl⟩

/-- C8: report ordering.  For every grouping result and either value of
`--template-names-only`, the printed groups are the grouping keys sorted
lexicographically by `(description, full template hash)`; the displayed
hash is the 7-character truncation of the full hash, which itself remains
the grouping/sorting key; and within each group (when stacks are printed
at all) the stacks are exactly the group's stacks sorted by stack name. -/
theorem report_ordering (template_names_only : Bool)
    (desc_hash_dict : List ((String × String) × List (String × String))) :
    List.Sorted descHashLe
      ((build_report template_names_only desc_hash_dict).map
        (fun g => (g.description, g.templateHash))) ∧
    ((build_report template_names_only desc_hash_dict).map
        (fun g => (g.description, g.templateHash))).Perm
      (desc_hash_dict.map (fun e => e.1)) ∧
    (∀ g ∈ build_report template_names_only desc_hash_dict,
      g.shortHash = String.mk (g.templateHash.data.take 7)) ∧
    (∀ g ∈ build_report template_names_only desc_hash_dict,
      template_names_only = false →
        List.Sorted stackNameLe g.stackLines ∧
        g.stackLines.Perm
          ((desc_hash_dict.lookup (g.description, g.templateHash)).getD [])) := by
  have hmap : (build_report template_names_only desc_hash_dict).map
      (fun g => (g.description, g.templateHash)) =
      List.insertionSort descHashLe (desc_hash_dict.map (fun e => e.1)) := by
    unfold build_report
    rw [List.map_map]
    exact List.map_id'' (fun k => rfl) _
  refine ⟨?_, ?_, ?_, ?_⟩
  · rw [hmap]
    exact List.sorted_insertionSort _ _
  · rw [hmap]
    exact List.perm_insertionSort _ _
  · intro g hg
    unfold build_report at hg
    obtain ⟨k, _, rfl⟩ := List.mem_map.mp hg
    rfl
  · intro g hg htno
    subst htno
    unfold build_report at hg
    obtain ⟨k, _, rfl⟩ := List.mem_map.mp hg
    constructor
    · exact List.sorted_insertionSort _ _
    · exact List.perm_insertionSort _ _

/-- Witness for C8: a two-group dict, checked on the group `"d"`. -/
theorem report_ordering_witness :
    (⟨"d", "0123456789abcdef", "0123456", [("s1", "t1"), ("s2", "t2")]⟩ : ReportGroup) ∈
      build_report false
        [(("d", "0123456789abcdef"), [("s2", "t2"), ("s1", "t1")]),
         (("a", "ffff"), [("q", "u")])] ∧
    (false = false) ∧
    (List.Sorted stackNameLe
        ((⟨"d", "0123456789abcdef", "0123456", [("s1", "t1"), ("s2", "t2")]⟩ :
          ReportGroup).stackLines) ∧
      ((⟨"d", "0123456789abcdef", "0123456", [("s1", "t1"), ("s2", "t2")]⟩ :
          ReportGroup).stackLines).Perm
        (([(("d", "0123456789abcdef"), [("s2", "t2"), ("s1", "t1")]),
           (("a", "ffff"), [("q", "u")])].lookup ("d", "0123456789abcdef")).getD [])) :=
  ⟨by decide, rfl,
    (report_ordering false
        [(("d", "0123456789abcdef"), [("s2", "t2"), ("s1", "t1")]),
         (("a", "ffff"), [("q", "u")])]).2.2.2
      ⟨"d", "0123456789abcdef", "0123456", [("s1", "t1"), ("s2", "t2")]⟩ (by decide) rfl⟩

/-- C9: the cost-analysis script requires at least one task.  Whenever
the described task list is empty, `main_core` stops with `ValueError`
(Python's `max` over an empty sequence, line 93) for every instance type
and every container-instance list — before any capacity computation, and
never reaching the `return 0` — so a successful run presupposes a
non-empty task list. -/
theorem empty_task_list_value_error (instance_type : String) (tasks : List EcsTask)
    (container_instances : List ContainerInstance) (h : tasks = []) :
    main_core instance_type tasks container_instances = Except.error PyError.valueError ∧
    ∀ out : MainReport,
      main_core instance_type tasks container_instances ≠ Except.ok out := by
  subst h
  refine ⟨rfl, ?_⟩
  intro out hout
  simp [main_core, pyMaxBy] at hout

/-- Witness for C9: the empty task list with a known instance type. -/
theorem empty_task_list_value_error_witness :
    ([] : List EcsTask) = [] ∧
    main_core "m5.large" [] [] = Except.error PyError.valueError :=
  ⟨rfl, (empty_task_list_value_error "m5.large" [] [] rfl).1⟩

/-- C10 counterexample: for the out-of-table type `t3.micro` and an empty
task list, `main_core` raises `ValueError` from `max` (line 93) before
the `instance_data` lookup on line 96 — not `KeyError` — so an unknown
instance type does not imply a `KeyError` in every run. -/
theorem instance_type_key_error_counterexample :
    instance_data.lookup "t3.micro" = none ∧
    main_core "t3.micro" [] [] = Except.error PyError.valueError ∧
    isKeyError (main_core "t3.micro" [] []) = false :=
  ⟨by decide, rfl, by decide⟩

/-- C10 (amended): in every run whose task list is non-empty (so that the
`max` calls of lines 93-94 succeed), `main_core` raises an unhandled
`KeyError` if and only if the instance type is outside the hardcoded m5
table, and in that case the error is `KeyError(instance_type)` from the
first `instance_data[instance_type]` lookup (line 96).  (With an empty
task list a `ValueError` precedes the lookup — see the counterexample.) -/
theorem instance_type_key_error_iff (instance_type : String) (tasks : List EcsTask)
    (container_instances : List ContainerInstance) (h : tasks ≠ []) :
    (isKeyError (main_core instance_type tasks container_instances) = true ↔
      instance_data.lookup instance_type = none) ∧
    (instance_data.lookup instance_type = none →
      main_core instance_type tasks container_instances =
        Except.error (PyError.keyError instance_type)) := by
  obtain ⟨t, ts, rfl⟩ : ∃ t ts, tasks = t :: ts := by
    cases tasks with
    | nil => exact absurd rfl h
    | cons t ts => exact ⟨t, ts, rfl⟩
  cases hl : instance_data.lookup instance_type with
  | none => simp [main_core, pyMaxBy, dictGet, hl, isKeyError]
  | some prof => simp [main_core, pyMaxBy, dictGet, hl, isKeyError]

/-- Witness for C10: a one-task run with the out-of-table type `t3.micro`. -/
theorem instance_type_key_error_iff_witness :
    ([⟨256, 512⟩] : List EcsTask) ≠ [] ∧
    (isKeyError (main_core "t3.micro" [⟨256, 512⟩] []) = true ↔
      instance_data.lookup "t3.micro" = none) ∧
    (instance_data.lookup "t3.micro" = none →
      main_core "t3.micro" [⟨256, 512⟩] [] =
        Except.error (PyError.keyError "t3.micro")) :=
  ⟨by decide, (instance_type_key_error_iff "t3.micro" [⟨256, 512⟩] [] (by decide)).1,
    (instance_type_key_error_iff "t3.micro" [⟨256, 512⟩] [] (by decide)).2⟩
